import Mathlib

/-!
Shallow embedding of the core of the `blue1` repository (entity model,
ordering policy, cache store / API client, hit-rate command, ranking replay)
together with theorems settling the specification claims.

Source files embedded: `blue1/frc.py`, `blue1/tba.py`, `blue1/state.py`,
`blue1/bot.py`.
-/

namespace Blue1

/-! ## Entity model (`blue1/frc.py`)

Raw records are modelled as structures whose fields are `Option`-valued: a
`none` field models a record whose corresponding JSON key is absent (in the
Python source, accessing it raises `KeyError`).  A present-but-null value is
not distinguished from a present value here; no claim depends on it.
-/

/-- The error produced when a raw record is missing a required field
(the spec's `MalformedRecord`; realized in Python as the `KeyError` escaping
`__init__`). -/
inductive MalformedRecord where
  | missingField
deriving DecidableEq

/-- Sequential required-field access: `require o k` reads the field `o`;
if the key is absent the construction fails at once (Python's `KeyError`
raised from `json[...]`), otherwise construction continues with the value. -/
def require (o : Option α) (k : α → Except MalformedRecord β) :
    Except MalformedRecord β :=
  match o with
  | none => Except.error MalformedRecord.missingField
  | some a => k a

/-- `frc.Team`: fields assigned in `Team.__init__`. -/
structure Team where
  id : String
  name : String
  nickname : String
  school_name : String
  website : String
  country : String
  state_or_province : String
  city : String
  team_number : Int
  rookie_year : Int
deriving DecidableEq

/-- Raw record consumed by `Team.__init__` (JSON keys in source order). -/
structure TeamRecord where
  key : Option String
  name : Option String
  nickname : Option String
  school_name : Option String
  website : Option String
  country : Option String
  state_prov : Option String
  city : Option String
  team_number : Option Int
  rookie_year : Option Int
deriving DecidableEq

/-- `Team.__init__`: reads each required key in source order and fails with
`MalformedRecord` on the first absent one. -/
def Team.ofRecord (j : TeamRecord) : Except MalformedRecord Team :=
  require j.key fun id =>
  require j.name fun name =>
  require j.nickname fun nickname =>
  require j.school_name fun school_name =>
  require j.website fun website =>
  require j.country fun country =>
  require j.state_prov fun state_or_province =>
  require j.city fun city =>
  require j.team_number fun team_number =>
  require j.rookie_year fun rookie_year =>
  Except.ok
    { id := id, name := name, nickname := nickname, school_name := school_name,
      website := website, country := country,
      state_or_province := state_or_province, city := city,
      team_number := team_number, rookie_year := rookie_year }

/-- `frc.Event`: fields assigned in `Event.__init__`. -/
structure Event where
  id : String
  name : String
  event_code : String
  event_type : String
  website : String
  playoff_type : String
  country : String
  state_or_province : String
  city : String
  address : String
  location_name : String
  gmaps_url : String
  start_date : String
  end_date : String
  year : Int
deriving DecidableEq

/-- Raw record consumed by `Event.__init__` (JSON keys in source order). -/
structure EventRecord where
  key : Option String
  name : Option String
  event_code : Option String
  event_type_string : Option String
  website : Option String
  playoff_type_string : Option String
  country : Option String
  state_prov : Option String
  city : Option String
  address : Option String
  location_name : Option String
  gmaps_url : Option String
  start_date : Option String
  end_date : Option String
  year : Option Int
deriving DecidableEq

/-- `Event.__init__`: reads each required key in source order and fails with
`MalformedRecord` on the first absent one. -/
def Event.ofRecord (j : EventRecord) : Except MalformedRecord Event :=
  require j.key fun id =>
  require j.name fun name =>
  require j.event_code fun event_code =>
  require j.event_type_string fun event_type =>
  require j.website fun website =>
  require j.playoff_type_string fun playoff_type =>
  require j.country fun country =>
  require j.state_prov fun state_or_province =>
  require j.city fun city =>
  require j.address fun address =>
  require j.location_name fun location_name =>
  require j.gmaps_url fun gmaps_url =>
  require j.start_date fun start_date =>
  require j.end_date fun end_date =>
  require j.year fun year =>
  Except.ok
    { id := id, name := name, event_code := event_code, event_type := event_type,
      website := website, playoff_type := playoff_type, country := country,
      state_or_province := state_or_province, city := city, address := address,
      location_name := location_name, gmaps_url := gmaps_url,
      start_date := start_date, end_date := end_date, year := year }

/-- `frc.Match`: fields assigned in `Match.__init__` (the two raw
score-breakdown dicts are kept only through their extracted `rp` values,
which are the sole parts the rest of the core reads). -/
structure Match where
  id : String
  event_id : String
  comp_level : String
  set_number : Int
  match_number : Int
  red_alliance_teams : List Int
  blue_alliance_teams : List Int
  red_alliance_score : Option Int
  blue_alliance_score : Option Int
  red_alliance_rp_awarded : Option Int
  blue_alliance_rp_awarded : Option Int
  winning_alliance : String
  videos : List String
deriving DecidableEq

/-- Extracted `score_breakdown` values (`json['score_breakdown']['red']['rp']`
and the blue counterpart). -/
structure ScoreBreakdown where
  red_rp : Int
  blue_rp : Int
deriving DecidableEq

/-- Raw record consumed by `Match.__init__`.  The nested
`json['alliances'][colour]['team_keys'/'score']` accesses are flattened into
one field each (team keys already parsed to numbers, as
`team_number_from_id` does); `score_breakdown` distinguishes an absent key
(`none`, a `KeyError` the `except TypeError` clause does not catch) from a
present null (`some none`, the `TypeError` case the source catches). -/
structure MatchRecord where
  key : Option String
  event_key : Option String
  comp_level : Option String
  set_number : Option Int
  match_number : Option Int
  red_team_keys : Option (List Int)
  blue_team_keys : Option (List Int)
  red_score : Option Int
  blue_score : Option Int
  score_breakdown : Option (Option ScoreBreakdown)
  winning_alliance : Option String
  videos : Option (List String)
deriving DecidableEq

/-- `Match.__init__`: reads each required key in source order; normalizes a
double-negative score pair to two absent scores; a null `score_breakdown`
leaves both rp fields absent. -/
def Match.ofRecord (j : MatchRecord) : Except MalformedRecord Match :=
  require j.key fun id =>
  require j.event_key fun event_id =>
  require j.comp_level fun comp_level =>
  require j.set_number fun set_number =>
  require j.match_number fun match_number =>
  require j.red_team_keys fun red_alliance_teams =>
  require j.blue_team_keys fun blue_alliance_teams =>
  require j.red_score fun rs =>
  require j.blue_score fun bs =>
  let scores : Option Int × Option Int :=
    if rs < 0 ∧ bs < 0 then (none, none) else (some rs, some bs)
  require j.score_breakdown fun sb =>
  let rps : Option Int × Option Int :=
    match sb with
    | none => (none, none)
    | some bd => (some bd.red_rp, some bd.blue_rp)
  require j.winning_alliance fun winning_alliance =>
  require j.videos fun videos =>
  Except.ok
    { id := id, event_id := event_id, comp_level := comp_level,
      set_number := set_number, match_number := match_number,
      red_alliance_teams := red_alliance_teams,
      blue_alliance_teams := blue_alliance_teams,
      red_alliance_score := scores.1, blue_alliance_score := scores.2,
      red_alliance_rp_awarded := rps.1, blue_alliance_rp_awarded := rps.2,
      winning_alliance := winning_alliance, videos := videos }

/-- `Match.was_played`: `blue_alliance_score is not None and
red_alliance_score is not None`. -/
def Match.was_played (m : Match) : Bool :=
  m.blue_alliance_score.isSome && m.red_alliance_score.isSome

/-- `Match.get_team_score`: the score of the alliance containing the team,
red alliance checked first, `None` if the team is in neither. -/
def Match.get_team_score (m : Match) (team_number : Int) : Option Int :=
  if team_number ∈ m.red_alliance_teams then m.red_alliance_score
  else if team_number ∈ m.blue_alliance_teams then m.blue_alliance_score
  else none

/-- `Match.overall_number`: `set_number * match_number`. -/
def Match.overall_number (m : Match) : Int :=
  m.set_number * m.match_number

/-- `frc.comp_level_cmp`.  The Python function implicitly returns `None`
when the levels differ and neither is `'f'` nor `'sf'`; that fall-through is
the `none` case. -/
def comp_level_cmp (x y : String) : Option Int :=
  if x = y then some 0
  else if x = "f" then some 1
  else if y = "f" then some (-1)
  else if x = "sf" then some 1
  else if y = "sf" then some (-1)
  else none

/-- `frc.match_cmp`.  When `comp_level_cmp` falls through to `None`, Python's
`level_cmp != 0` test is true and `match_cmp` returns that `None`; this is
the `none` case here. -/
def match_cmp (x y : Match) : Option Int :=
  if x.was_played = false then some (-1)
  else if y.was_played = false then some 1
  else
    match comp_level_cmp x.comp_level y.comp_level with
    | none => none
    | some c => if c ≠ 0 then some c else some (x.overall_number - y.overall_number)

/-! ## Ordering policy as used by `sorted(..., key=cmp_to_key(frc.match_cmp))`

Python's `sorted` is a stable sort driven by the comparator; it is modelled
by the stable `List.insertionSort` over the non-strict relation
`match_cmp x y ≤ 0`.  On inputs where the comparator returns `None`
(mixed exotic levels) Python's sort raises; `matchLe` returns `false` there
and the model is only asserted for inputs on which the comparator is total.
-/

/-- Non-strict comparator order: `match_cmp x y ≤ 0`. -/
def matchLe (x y : Match) : Bool :=
  match match_cmp x y with
  | some c => decide (c ≤ 0)
  | none => false

/-- `matchLe` as a relation, for `List.insertionSort`. -/
def MatchR (x y : Match) : Prop := matchLe x y = true

instance : DecidableRel MatchR := fun x y =>
  inferInstanceAs (Decidable (matchLe x y = true))

/-- The ordering-policy sort: Python `sorted(l, key=cmp_to_key(match_cmp))`
modelled as the stable insertion sort over `MatchR`. -/
def sortMatches (l : List Match) : List Match :=
  l.insertionSort MatchR

/-- Position of a competition level on the qualification → semifinal → final
axis (formalizing the spec's level order; only meaningful for these three
levels). -/
def levelRank (s : String) : Nat :=
  if s = "qm" then 0 else if s = "sf" then 1 else 2

/-! ## Cache store (`blue1/state.py`) and API client (`blue1/tba.py`)

`FileDictMonad` is a string-keyed dictionary persisted to disk on every
`set`; its observable behaviour is the mapping, modelled as a function
`String → Option α`.  The payload type is an abstract `α` (the parsed JSON
value). -/

/-- The observable content of a `FileDictMonad`. -/
def FileDict (α : Type) : Type := String → Option α

/-- `FileDictMonad.get`: the stored value, `None` when the key is absent. -/
def FileDict.get (d : FileDict α) (k : String) : Option α := d k

/-- `FileDictMonad.set`: store `value` under `key`, overwriting any prior
entry (then flushed to disk, which has no observable effect here). -/
def FileDict.set (d : FileDict α) (k : String) (v : α) : FileDict α :=
  fun k' => if k' = k then some v else d k'

/-- A cache value as stored by `Tba.make_api_request`:
`{'time': round(time.time()), 'response': data}`. -/
structure CacheEntry (α : Type) where
  time : Int
  response : α

/-- The mutable state touched by `Tba.make_api_request`: the two process-wide
counters and the `state.CACHE` dictionary. -/
structure TbaState (α : Type) where
  cache_hits : Nat
  cache_misses : Nat
  cache : FileDict (CacheEntry α)

/-- A `requests.Response`: status code and (parsed) body. -/
structure Response (α : Type) where
  status : Nat
  body : α

/-- `tba.res_is_good`: true iff the status code is `requests.codes.ok`
(200); a failure is additionally logged, which has no observable effect
here. -/
def res_is_good (r : Response α) : Bool := r.status == 200

/-- What `Tba.make_api_request` hands back to its caller: a parsed JSON
payload, Python `None`, or — on the cache-disabled path — the raw
`requests.Response` object itself. -/
inductive ReqResult (α : Type) where
  | json (data : α)
  | pynone
  | raw (r : Response α)

/-- The miss path of `Tba.make_api_request` (absent or expired entry):
count a miss, perform the live fetch, store a fresh entry on success,
return `data`. -/
def cacheMiss (now : Int) (s : TbaState α) (path : String)
    (response : Response α) : ReqResult α × Bool × TbaState α :=
  let s1 : TbaState α :=
    { s with cache_misses := s.cache_misses + 1 }
  match (if res_is_good response then some response.body else none) with
  | some d =>
      (ReqResult.json d, true,
        { s1 with cache := s1.cache.set path ⟨now, d⟩ })
  | none => (ReqResult.pynone, true, s1)

/-- `Tba.make_api_request`.  Inputs beyond the state: the configured TTL
(`state.STATE.get('cache_expiration_time')`), the current time
(`round(time.time())`), the request path, and the response the network
would return for this call.  The `Bool` in the result records whether
`requests.get` was executed.  On the cache-disabled path the source
computes `data` but returns the raw `response` object. -/
def make_api_request (ttl : Option Int) (now : Int) (s : TbaState α)
    (path : String) (response : Response α) :
    ReqResult α × Bool × TbaState α :=
  match ttl with
  | none =>
      let _data := if res_is_good response then some response.body else none
      (ReqResult.raw response, true, s)
  | some cache_expiration_time =>
      match s.cache.get path with
      | none => cacheMiss now s path response
      | some cache_item =>
          if now - cache_item.time > cache_expiration_time then
            cacheMiss now s path response
          else
            (ReqResult.json cache_item.response, false,
              { s with cache_hits := s.cache_hits + 1 })

/-! ## Observability command and ranking replay (`blue1/bot.py`) -/

/-- `get_cache_hit_rate` (bot.py): computes
`float(hits) / float(misses + hits)`.  Python raises `ZeroDivisionError`
when the denominator is zero; that exception is the `error` case.  Exact
rationals stand in for Python floats. -/
def get_cache_hit_rate (hits misses : Nat) : Except Unit ℚ :=
  if misses + hits = 0 then Except.error ()
  else Except.ok ((hits : ℚ) / ((misses : ℚ) + (hits : ℚ)))

/-- One alliance's update in the replay loop of `get_team_rank`: for each
listed team, add `rp` to its cumulative ranking points and increment its
matches-played count. -/
def addRP (rp : Int) (teams : List Int) (ranks : Int → Int × Nat) :
    Int → Int × Nat :=
  teams.foldl
    (fun r t => fun u => if u = t then ((r t).1 + rp, (r t).2 + 1) else r u)
    ranks

/-- Folding one qualification match into the rank state: red alliance first,
then blue, as in the source.  The source reads the `rp_awarded` fields
directly (they are assumed present for qualification matches; on an absent
award Python would raise `TypeError`, a case outside every claim). -/
def rankFold (ranks : Int → Int × Nat) (m : Match) : Int → Int × Nat :=
  addRP (m.blue_alliance_rp_awarded.getD 0) m.blue_alliance_teams
    (addRP (m.red_alliance_rp_awarded.getD 0) m.red_alliance_teams ranks)

/-- `float(rank[0]) / float(rank[1]) if rank[1] != 0 else 0`. -/
def avgOf (pr : Int × Nat) : ℚ :=
  if pr.2 = 0 then 0 else (pr.1 : ℚ) / (pr.2 : ℚ)

/-- The rank computed for the target team after a match is folded in:
`1` plus the number of teams whose average RP strictly exceeds the
target's. -/
def rankOfTarget (teams : List Int) (ranks : Int → Int × Nat)
    (target : Int) : Nat :=
  1 + teams.countP (fun t => decide (avgOf (ranks target) < avgOf (ranks t)))

/-- One iteration of the `for match in matches` loop of `get_team_rank`:
non-qualification matches are skipped; a qualification match is folded in,
then the target's average RP and rank are appended. -/
def replayStep (teams : List Int) (target : Int)
    (st : (Int → Int × Nat) × List ℚ × List Nat) (m : Match) :
    (Int → Int × Nat) × List ℚ × List Nat :=
  if m.comp_level = "qm" then
    let ranks := rankFold st.1 m
    (ranks,
      st.2.1 ++ [avgOf (ranks target)],
      st.2.2 ++ [rankOfTarget teams ranks target])
  else st

/-- The ranking replay of `get_team_rank`: every team starts at
`(0 RP, 0 matches)`; the match list is folded in order, producing the
final rank state, `rp_avg_v_time`, and `rank_v_time`. -/
def get_team_rank_replay (teams : List Int) (target : Int)
    (ms : List Match) : (Int → Int × Nat) × List ℚ × List Nat :=
  ms.foldl (replayStep teams target) ((fun _ => (0, 0)), [], [])

/-- The sequence of average-RP values the replay loop appends for the target
while consuming `ms` from rank state `ranks` (a recursive characterization
of the loop's `rp_avg_v_time` appends, used to relate the fold to its
per-step states). -/
def trajAvg (target : Int) (ranks : Int → Int × Nat) : List Match → List ℚ
  | [] => []
  | m :: rest =>
    if m.comp_level = "qm" then
      avgOf (rankFold ranks m target) :: trajAvg target (rankFold ranks m) rest
    else trajAvg target ranks rest

/-- The sequence of rank values the replay loop appends for the target while
consuming `ms` from rank state `ranks` (the loop's `rank_v_time` appends). -/
def trajRank (teams : List Int) (target : Int) (ranks : Int → Int × Nat) :
    List Match → List Nat
  | [] => []
  | m :: rest =>
    if m.comp_level = "qm" then
      rankOfTarget teams (rankFold ranks m) target ::
        trajRank teams target (rankFold ranks m) rest
    else trajRank teams target ranks rest

/-! ## Helper lemmas -/

/-- `MalformedRecord` has a single value, so any failed construction is
exactly `error missingField`. -/
theorem except_eq_error {α : Type} (x : Except MalformedRecord α)
    (h : x.isOk = false) : x = Except.error MalformedRecord.missingField := by
  cases x with
  | error e => cases e; rfl
  | ok a => simp [Except.isOk, Except.toBool] at h

/-- `Team.ofRecord` succeeds exactly when every required key is present. -/
theorem team_ofRecord_isOk (j : TeamRecord) :
    (Team.ofRecord j).isOk =
      (j.key.isSome && j.name.isSome && j.nickname.isSome &&
       j.school_name.isSome && j.website.isSome && j.country.isSome &&
       j.state_prov.isSome && j.city.isSome && j.team_number.isSome &&
       j.rookie_year.isSome) := by
  obtain ⟨f1, f2, f3, f4, f5, f6, f7, f8, f9, f10⟩ := j
  cases f1 <;> simp only [Team.ofRecord, require, Except.isOk, Except.toBool,
    Option.isSome, Bool.false_and, Bool.true_and, Bool.and_false]
  cases f2 <;> simp only [require, Except.isOk, Except.toBool,
    Option.isSome, Bool.false_and, Bool.true_and, Bool.and_false]
  cases f3 <;> simp only [require, Except.isOk, Except.toBool,
    Option.isSome, Bool.false_and, Bool.true_and, Bool.and_false]
  cases f4 <;> simp only [require, Except.isOk, Except.toBool,
    Option.isSome, Bool.false_and, Bool.true_and, Bool.and_false]
  cases f5 <;> simp only [require, Except.isOk, Except.toBool,
    Option.isSome, Bool.false_and, Bool.true_and, Bool.and_false]
  cases f6 <;> simp only [require, Except.isOk, Except.toBool,
    Option.isSome, Bool.false_and, Bool.true_and, Bool.and_false]
  cases f7 <;> simp only [require, Except.isOk, Except.toBool,
    Option.isSome, Bool.false_and, Bool.true_and, Bool.and_false]
  cases f8 <;> simp only [require, Except.isOk, Except.toBool,
    Option.isSome, Bool.false_and, Bool.true_and, Bool.and_false]
  cases f9 <;> simp only [require, Except.isOk, Except.toBool,
    Option.isSome, Bool.false_and, Bool.true_and, Bool.and_false]
  cases f10 <;> simp only [require, Except.isOk, Except.toBool,
    Option.isSome, Bool.false_and, Bool.true_and, Bool.and_false]

/-- `Event.ofRecord` succeeds exactly when every required key is present. -/
theorem event_ofRecord_isOk (j : EventRecord) :
    (Event.ofRecord j).isOk =
      (j.key.isSome && j.name.isSome && j.event_code.isSome &&
       j.event_type_string.isSome && j.website.isSome &&
       j.playoff_type_string.isSome && j.country.isSome &&
       j.state_prov.isSome && j.city.isSome && j.address.isSome &&
       j.location_name.isSome && j.gmaps_url.isSome && j.start_date.isSome &&
       j.end_date.isSome && j.year.isSome) := by
  obtain ⟨f1, f2, f3, f4, f5, f6, f7, f8, f9, f10, f11, f12, f13, f14, f15⟩ := j
  cases f1 <;> simp only [Event.ofRecord, require, Except.isOk, Except.toBool,
    Option.isSome, Bool.false_and, Bool.true_and, Bool.and_false]
  cases f2 <;> simp only [require, Except.isOk, Except.toBool,
    Option.isSome, Bool.false_and, Bool.true_and, Bool.and_false]
  cases f3 <;> simp only [require, Except.isOk, Except.toBool,
    Option.isSome, Bool.false_and, Bool.true_and, Bool.and_false]
  cases f4 <;> simp only [require, Except.isOk, Except.toBool,
    Option.isSome, Bool.false_and, Bool.true_and, Bool.and_false]
  cases f5 <;> simp only [require, Except.isOk, Except.toBool,
    Option.isSome, Bool.false_and, Bool.true_and, Bool.and_false]
  cases f6 <;> simp only [require, Except.isOk, Except.toBool,
    Option.isSome, Bool.false_and, Bool.true_and, Bool.and_false]
  cases f7 <;> simp only [require, Except.isOk, Except.toBool,
    Option.isSome, Bool.false_and, Bool.true_and, Bool.and_false]
  cases f8 <;> simp only [require, Except.isOk, Except.toBool,
    Option.isSome, Bool.false_and, Bool.true_and, Bool.and_false]
  cases f9 <;> simp only [require, Except.isOk, Except.toBool,
    Option.isSome, Bool.false_and, Bool.true_and, Bool.and_false]
  cases f10 <;> simp only [require, Except.isOk, Except.toBool,
    Option.isSome, Bool.false_and, Bool.true_and, Bool.and_false]
  cases f11 <;> simp only [require, Except.isOk, Except.toBool,
    Option.isSome, Bool.false_and, Bool.true_and, Bool.and_false]
  cases f12 <;> simp only [require, Except.isOk, Except.toBool,
    Option.isSome, Bool.false_and, Bool.true_and, Bool.and_false]
  cases f13 <;> simp only [require, Except.isOk, Except.toBool,
    Option.isSome, Bool.false_and, Bool.true_and, Bool.and_false]
  cases f14 <;> simp only [require, Except.isOk, Except.toBool,
    Option.isSome, Bool.false_and, Bool.true_and, Bool.and_false]
  cases f15 <;> simp only [require, Except.isOk, Except.toBool,
    Option.isSome, Bool.false_and, Bool.true_and, Bool.and_false]

/-- `Match.ofRecord` succeeds exactly when every required key is present. -/
theorem match_ofRecord_isOk (j : MatchRecord) :
    (Match.ofRecord j).isOk =
      (j.key.isSome && j.event_key.isSome && j.comp_level.isSome &&
       j.set_number.isSome && j.match_number.isSome &&
       j.red_team_keys.isSome && j.blue_team_keys.isSome &&
       j.red_score.isSome && j.blue_score.isSome &&
       j.score_breakdown.isSome && j.winning_alliance.isSome &&
       j.videos.isSome) := by
  obtain ⟨f1, f2, f3, f4, f5, f6, f7, f8, f9, f10, f11, f12⟩ := j
  cases f1 <;> simp only [Match.ofRecord, require, Except.isOk, Except.toBool,
    Option.isSome, Bool.false_and, Bool.true_and, Bool.and_false]
  cases f2 <;> simp only [require, Except.isOk, Except.toBool,
    Option.isSome, Bool.false_and, Bool.true_and, Bool.and_false]
  cases f3 <;> simp only [require, Except.isOk, Except.toBool,
    Option.isSome, Bool.false_and, Bool.true_and, Bool.and_false]
  cases f4 <;> simp only [require, Except.isOk, Except.toBool,
    Option.isSome, Bool.false_and, Bool.true_and, Bool.and_false]
  cases f5 <;> simp only [require, Except.isOk, Except.toBool,
    Option.isSome, Bool.false_and, Bool.true_and, Bool.and_false]
  cases f6 <;> simp only [require, Except.isOk, Except.toBool,
    Option.isSome, Bool.false_and, Bool.true_and, Bool.and_false]
  cases f7 <;> simp only [require, Except.isOk, Except.toBool,
    Option.isSome, Bool.false_and, Bool.true_and, Bool.and_false]
  cases f8 <;> simp only [require, Except.isOk, Except.toBool,
    Option.isSome, Bool.false_and, Bool.true_and, Bool.and_false]
  cases f9 <;> simp only [require, Except.isOk, Except.toBool,
    Option.isSome, Bool.false_and, Bool.true_and, Bool.and_false]
  case some =>
    cases f10 <;> simp only [require, Except.isOk, Except.toBool,
      Option.isSome, Bool.false_and, Bool.true_and, Bool.and_false]
    case some sb =>
      cases sb <;>
        cases f11 <;> simp only [require, Except.isOk, Except.toBool,
          Option.isSome, Bool.false_and, Bool.true_and, Bool.and_false] <;>
        cases f12 <;> simp only [require, Except.isOk, Except.toBool,
          Option.isSome, Bool.false_and, Bool.true_and, Bool.and_false]

/-- Characterization of a successful `Match` construction: the team lists are
taken from the record, and the stored scores are the record's scores unless
both are negative, in which case both are normalized to absent. -/
theorem match_ofRecord_ok_fields (j : MatchRecord) (m : Match)
    (h : Match.ofRecord j = Except.ok m) :
    j.red_team_keys = some m.red_alliance_teams ∧
    j.blue_team_keys = some m.blue_alliance_teams ∧
    ∃ rs bs : Int, j.red_score = some rs ∧ j.blue_score = some bs ∧
      (if rs < 0 ∧ bs < 0
       then m.red_alliance_score = none ∧ m.blue_alliance_score = none
       else m.red_alliance_score = some rs ∧ m.blue_alliance_score = some bs) := by
  obtain ⟨f1, f2, f3, f4, f5, f6, f7, f8, f9, f10, f11, f12⟩ := j
  cases f1
  · simp [Match.ofRecord, require] at h
  cases f2
  · simp [Match.ofRecord, require] at h
  cases f3
  · simp [Match.ofRecord, require] at h
  cases f4
  · simp [Match.ofRecord, require] at h
  cases f5
  · simp [Match.ofRecord, require] at h
  cases f6
  · simp [Match.ofRecord, require] at h
  cases f7
  · simp [Match.ofRecord, require] at h
  cases f8
  · simp [Match.ofRecord, require] at h
  cases f9
  · simp [Match.ofRecord, require] at h
  cases f10
  · simp [Match.ofRecord, require] at h
  cases f11
  · simp [Match.ofRecord, require] at h
  cases f12
  · simp [Match.ofRecord, require] at h
  simp only [Match.ofRecord, require] at h
  injection h with h
  subst h
  case _ rs bs sb wa vd =>
    refine ⟨rfl, rfl, rs, bs, rfl, rfl, ?_⟩
    split_ifs with hneg <;> simp [hneg]

/-! ## Claims about the entity model -/

/-- C6: a constructed `Match` is played iff both alliance scores are present;
a record with both alliance scores negative is normalized at construction to
both scores absent (unplayed); a record with both scores non-negative yields
a played match. -/
theorem match_ofRecord_played_normalization (j : MatchRecord) (m : Match)
    (h : Match.ofRecord j = Except.ok m) :
    (m.was_played = true ↔
      (m.red_alliance_score.isSome = true ∧ m.blue_alliance_score.isSome = true)) ∧
    (∀ rs bs : Int, j.red_score = some rs → j.blue_score = some bs →
      rs < 0 → bs < 0 →
      m.red_alliance_score = none ∧ m.blue_alliance_score = none ∧
      m.was_played = false) ∧
    (∀ rs bs : Int, j.red_score = some rs → j.blue_score = some bs →
      0 ≤ rs → 0 ≤ bs →
      m.red_alliance_score = some rs ∧ m.blue_alliance_score = some bs ∧
      m.was_played = true) := by
  obtain ⟨-, -, rs', bs', hr', hb', hif⟩ := match_ofRecord_ok_fields j m h
  refine ⟨by simp [Match.was_played, Bool.and_eq_true, and_comm], ?_, ?_⟩
  · intro rs bs hr hb hrneg hbneg
    rw [hr'] at hr; rw [hb'] at hb
    obtain ⟨rfl⟩ := Option.some.injEq _ _ ▸ hr.symm
    obtain ⟨rfl⟩ := Option.some.injEq _ _ ▸ hb.symm
    rw [if_pos ⟨hrneg, hbneg⟩] at hif
    exact ⟨hif.1, hif.2, by simp [Match.was_played, hif.1, hif.2]⟩
  · intro rs bs hr hb hrpos hbpos
    rw [hr'] at hr; rw [hb'] at hb
    obtain ⟨rfl⟩ := Option.some.injEq _ _ ▸ hr.symm
    obtain ⟨rfl⟩ := Option.some.injEq _ _ ▸ hb.symm
    rw [if_neg (by push_neg; intro hc; omega)] at hif
    exact ⟨hif.1, hif.2, by simp [Match.was_played, hif.1, hif.2]⟩

/-- Concrete instance for C6: a record with both scores `-1` constructs an
unplayed match with both scores absent, and one with scores `10`/`5`
constructs a played match. -/
theorem match_ofRecord_played_normalization_check :
    Match.ofRecord
      (⟨some "2023cabl_qm1", some "2023cabl", some "qm", some 1, some 1,
        some [1, 2, 3], some [4, 5, 6], some (-1), some (-1), some none,
        some "", some []⟩ : MatchRecord) = Except.ok
      (⟨"2023cabl_qm1", "2023cabl", "qm", 1, 1, [1, 2, 3], [4, 5, 6],
        none, none, none, none, "", []⟩ : Match) ∧
    Match.red_alliance_score
      ⟨"2023cabl_qm1", "2023cabl", "qm", 1, 1, [1, 2, 3], [4, 5, 6],
        none, none, none, none, "", []⟩ = none ∧
    Match.blue_alliance_score
      ⟨"2023cabl_qm1", "2023cabl", "qm", 1, 1, [1, 2, 3], [4, 5, 6],
        none, none, none, none, "", []⟩ = none ∧
    Match.was_played
      ⟨"2023cabl_qm1", "2023cabl", "qm", 1, 1, [1, 2, 3], [4, 5, 6],
        none, none, none, none, "", []⟩ = false :=
  ⟨rfl, (match_ofRecord_played_normalization
    ⟨some "2023cabl_qm1", some "2023cabl", some "qm", some 1, some 1,
      some [1, 2, 3], some [4, 5, 6], some (-1), some (-1), some none,
      some "", some []⟩
    ⟨"2023cabl_qm1", "2023cabl", "qm", 1, 1, [1, 2, 3], [4, 5, 6],
      none, none, none, none, "", []⟩ (by rfl)).2.1 (-1) (-1)
    rfl rfl (by norm_num) (by norm_num)⟩

/-- C7: `get_team_score` returns the red alliance's score for a team on the
red alliance, the blue alliance's score for a team on the blue alliance, and
absent for a team on neither (alliances are disjoint per the data-model
invariant). -/
theorem get_team_score_cases (m : Match) (t : Int)
    (hdisj : ∀ u : Int, u ∈ m.red_alliance_teams → u ∉ m.blue_alliance_teams) :
    (t ∈ m.red_alliance_teams → m.get_team_score t = m.red_alliance_score) ∧
    (t ∈ m.blue_alliance_teams → m.get_team_score t = m.blue_alliance_score) ∧
    (t ∉ m.red_alliance_teams → t ∉ m.blue_alliance_teams →
      m.get_team_score t = none) := by
  refine ⟨fun hr => ?_, fun hb => ?_, fun hnr hnb => ?_⟩
  · simp [Match.get_team_score, hr]
  · have hnr : t ∉ m.red_alliance_teams := fun hr => hdisj t hr hb
    simp [Match.get_team_score, hnr, hb]
  · simp [Match.get_team_score, hnr, hnb]

/-- Concrete instance for C7: in a match between `[1,2,3]` (red, score 10)
and `[4,5,6]` (blue, score 5), team 2 scores 10, team 5 scores 5 and team 9
is absent. -/
theorem get_team_score_cases_check :
    Match.get_team_score
      ⟨"x", "e", "qm", 1, 1, [1, 2, 3], [4, 5, 6], some 10, some 5,
        none, none, "red", []⟩ 2 = some 10 ∧
    Match.get_team_score
      ⟨"x", "e", "qm", 1, 1, [1, 2, 3], [4, 5, 6], some 10, some 5,
        none, none, "red", []⟩ 5 = some 5 ∧
    Match.get_team_score
      ⟨"x", "e", "qm", 1, 1, [1, 2, 3], [4, 5, 6], some 10, some 5,
        none, none, "red", []⟩ 9 = none :=
  ⟨(get_team_score_cases
      ⟨"x", "e", "qm", 1, 1, [1, 2, 3], [4, 5, 6], some 10, some 5,
        none, none, "red", []⟩ 2 (by decide)).1 (by decide),
   (get_team_score_cases
      ⟨"x", "e", "qm", 1, 1, [1, 2, 3], [4, 5, 6], some 10, some 5,
        none, none, "red", []⟩ 5 (by decide)).2.1 (by decide),
   (get_team_score_cases
      ⟨"x", "e", "qm", 1, 1, [1, 2, 3], [4, 5, 6], some 10, some 5,
        none, none, "red", []⟩ 9 (by decide)).2.2 (by decide) (by decide)⟩

/-- C8: a raw record missing any required field makes `Team`, `Event` or
`Match` construction fail with `MalformedRecord`; no entity value is
produced. -/
theorem ofRecord_missing_required_field_errors :
    (∀ j : TeamRecord,
      (j.key = none ∨ j.name = none ∨ j.nickname = none ∨
       j.school_name = none ∨ j.website = none ∨ j.country = none ∨
       j.state_prov = none ∨ j.city = none ∨ j.team_number = none ∨
       j.rookie_year = none) →
      Team.ofRecord j = Except.error MalformedRecord.missingField) ∧
    (∀ j : EventRecord,
      (j.key = none ∨ j.name = none ∨ j.event_code = none ∨
       j.event_type_string = none ∨ j.website = none ∨
       j.playoff_type_string = none ∨ j.country = none ∨
       j.state_prov = none ∨ j.city = none ∨ j.address = none ∨
       j.location_name = none ∨ j.gmaps_url = none ∨ j.start_date = none ∨
       j.end_date = none ∨ j.year = none) →
      Event.ofRecord j = Except.error MalformedRecord.missingField) ∧
    (∀ j : MatchRecord,
      (j.key = none ∨ j.event_key = none ∨ j.comp_level = none ∨
       j.set_number = none ∨ j.match_number = none ∨
       j.red_team_keys = none ∨ j.blue_team_keys = none ∨
       j.red_score = none ∨ j.blue_score = none ∨
       j.score_breakdown = none ∨ j.winning_alliance = none ∨
       j.videos = none) →
      Match.ofRecord j = Except.error MalformedRecord.missingField) := by
  refine ⟨fun j h => except_eq_error _ ?_, fun j h => except_eq_error _ ?_,
    fun j h => except_eq_error _ ?_⟩
  · rw [team_ofRecord_isOk]
    rcases h with h | h | h | h | h | h | h | h | h | h <;> simp [h]
  · rw [event_ofRecord_isOk]
    rcases h with h | h | h | h | h | h | h | h | h | h | h | h | h | h | h <;>
      simp [h]
  · rw [match_ofRecord_isOk]
    rcases h with h | h | h | h | h | h | h | h | h | h | h | h <;> simp [h]

/-- Concrete instance for C8: a team record missing its `rookie_year`, an
event record missing its `key` and a match record missing its
`score_breakdown` all fail to construct. -/
theorem ofRecord_missing_required_field_errors_check :
    Team.ofRecord
      { key := some "frc1", name := some "n", nickname := some "nn",
        school_name := some "s", website := some "w", country := some "c",
        state_prov := some "st", city := some "ci", team_number := some 1,
        rookie_year := none } =
      Except.error MalformedRecord.missingField ∧
    Event.ofRecord
      { key := none, name := some "n", event_code := some "c",
        event_type_string := some "t", website := some "w",
        playoff_type_string := some "p", country := some "c",
        state_prov := some "s", city := some "ci", address := some "a",
        location_name := some "l", gmaps_url := some "g",
        start_date := some "sd", end_date := some "ed", year := some 2023 } =
      Except.error MalformedRecord.missingField ∧
    Match.ofRecord
      { key := some "k", event_key := some "e", comp_level := some "qm",
        set_number := some 1, match_number := some 1,
        red_team_keys := some [1, 2, 3], blue_team_keys := some [4, 5, 6],
        red_score := some 1, blue_score := some 2, score_breakdown := none,
        winning_alliance := some "blue", videos := some [] } =
      Except.error MalformedRecord.missingField :=
  ⟨ofRecord_missing_required_field_errors.1 _ (by simp),
   ofRecord_missing_required_field_errors.2.1 _ (Or.inl rfl),
   ofRecord_missing_required_field_errors.2.2 _ (by simp)⟩

/-- C9: a record with exactly one negative alliance score is not normalized:
both scores are kept, the match counts as played, and `get_team_score`
returns the negative score for a team on that alliance. -/
theorem match_ofRecord_single_negative (j : MatchRecord) (m : Match)
    (h : Match.ofRecord j = Except.ok m) (rs bs : Int)
    (hr : j.red_score = some rs) (hb : j.blue_score = some bs)
    (hdisj : ∀ u : Int, u ∈ m.red_alliance_teams → u ∉ m.blue_alliance_teams) :
    (rs < 0 → 0 ≤ bs →
      m.red_alliance_score = some rs ∧ m.blue_alliance_score = some bs ∧
      m.was_played = true ∧
      ∀ t : Int, t ∈ m.red_alliance_teams → m.get_team_score t = some rs) ∧
    (0 ≤ rs → bs < 0 →
      m.red_alliance_score = some rs ∧ m.blue_alliance_score = some bs ∧
      m.was_played = true ∧
      ∀ t : Int, t ∈ m.blue_alliance_teams → m.get_team_score t = some bs) := by
  obtain ⟨-, -, rs', bs', hr', hb', hif⟩ := match_ofRecord_ok_fields j m h
  rw [hr'] at hr; rw [hb'] at hb
  obtain ⟨rfl⟩ := Option.some.injEq _ _ ▸ hr.symm
  obtain ⟨rfl⟩ := Option.some.injEq _ _ ▸ hb.symm
  constructor
  · intro hrneg hbpos
    rw [if_neg (by push_neg; intro hc; omega)] at hif
    refine ⟨hif.1, hif.2, by simp [Match.was_played, hif.1, hif.2], ?_⟩
    intro t ht
    rw [(get_team_score_cases m t hdisj).1 ht, hif.1]
  · intro hrpos hbneg
    rw [if_neg (by push_neg; intro hc; omega)] at hif
    refine ⟨hif.1, hif.2, by simp [Match.was_played, hif.1, hif.2], ?_⟩
    intro t ht
    rw [(get_team_score_cases m t hdisj).2.1 ht, hif.2]

/-- Concrete instance for C9: a record with red score `-1` and blue score
`7` keeps both, is played, and team 1 (red) scores `-1`. -/
theorem match_ofRecord_single_negative_check :
    Match.ofRecord
      (⟨some "k", some "e", some "f", some 1, some 2, some [1, 2, 3],
        some [4, 5, 6], some (-1), some 7, some none, some "blue",
        some []⟩ : MatchRecord) = Except.ok
      (⟨"k", "e", "f", 1, 2, [1, 2, 3], [4, 5, 6], some (-1), some 7,
        none, none, "blue", []⟩ : Match) ∧
    Match.was_played
      ⟨"k", "e", "f", 1, 2, [1, 2, 3], [4, 5, 6], some (-1), some 7,
        none, none, "blue", []⟩ = true ∧
    Match.get_team_score
      ⟨"k", "e", "f", 1, 2, [1, 2, 3], [4, 5, 6], some (-1), some 7,
        none, none, "blue", []⟩ 1 = some (-1) := by
  have hmain := (match_ofRecord_single_negative
    ⟨some "k", some "e", some "f", some 1, some 2, some [1, 2, 3],
      some [4, 5, 6], some (-1), some 7, some none, some "blue", some []⟩
    ⟨"k", "e", "f", 1, 2, [1, 2, 3], [4, 5, 6], some (-1), some 7,
      none, none, "blue", []⟩ (by rfl) (-1) 7 rfl rfl
    (by decide)).1 (by norm_num) (by norm_num)
  exact ⟨rfl, hmain.2.2.1, hmain.2.2.2 1 (by decide)⟩

/-! ## Claims about the API client and the observability command -/

/-- C3: `get_cache_hit_rate` reports exactly `hits / (hits + misses)`
whenever `hits + misses > 0`; but with both counters zero the source still
evaluates `float(0) / float(0)`, raising `ZeroDivisionError` (the `error`
case) — the division is not guarded as the spec requires. -/
theorem get_cache_hit_rate_eval :
    (∀ h m : Nat, 0 < h + m →
      get_cache_hit_rate h m = Except.ok ((h : ℚ) / ((h : ℚ) + (m : ℚ)))) ∧
    get_cache_hit_rate 0 0 = Except.error () := by
  constructor
  · intro h m hpos
    rw [get_cache_hit_rate, if_neg (by omega)]
    rw [add_comm (m : ℚ) (h : ℚ)]
  · rfl

/-- Concrete instance for C3: three hits and one miss give rate `3/4`. -/
theorem get_cache_hit_rate_eval_check :
    get_cache_hit_rate 3 1 = Except.ok ((3 : ℚ) / ((3 : ℚ) + (1 : ℚ))) :=
  get_cache_hit_rate_eval.1 3 1 (by norm_num)

/-- C2: with no TTL configured, `make_api_request` performs a live fetch,
touches neither counter nor the cache — but returns the raw
`requests.Response` object (`return response` where the computed `data`
is discarded), never the parsed payload and never `None`, even on a
failed fetch. -/
theorem make_api_request_no_ttl_returns_raw {α : Type} (now : Int)
    (s : TbaState α) (path : String) (response : Response α) :
    make_api_request none now s path response =
      (ReqResult.raw response, true, s) ∧
    (∀ d : α, (ReqResult.raw response ≠ ReqResult.json d)) ∧
    ReqResult.raw response ≠ ReqResult.pynone := by
  exact ⟨rfl, fun d h => ReqResult.noConfusion h, fun h => ReqResult.noConfusion h⟩

/-- C1: with a TTL configured, `make_api_request` implements fetch-through
caching: an absent or expired entry counts one miss and live-fetches —
storing the fresh entry (overwriting) and returning the payload on success,
returning `None` with the cache untouched on failure; a fresh entry counts
one hit and returns the stored payload without any live fetch. -/
theorem make_api_request_fetch_through {α : Type} (ttl now : Int)
    (s : TbaState α) (path : String) (response : Response α) :
    ((s.cache.get path = none ∨
      (∃ item : CacheEntry α, s.cache.get path = some item ∧
        now - item.time > ttl)) →
      (make_api_request (some ttl) now s path response).2.2.cache_misses =
          s.cache_misses + 1 ∧
      (make_api_request (some ttl) now s path response).2.2.cache_hits =
          s.cache_hits ∧
      (make_api_request (some ttl) now s path response).2.1 = true ∧
      (res_is_good response = true →
        (make_api_request (some ttl) now s path response).1 =
          ReqResult.json response.body ∧
        (make_api_request (some ttl) now s path response).2.2.cache =
          s.cache.set path ⟨now, response.body⟩) ∧
      (res_is_good response = false →
        (make_api_request (some ttl) now s path response).1 =
          ReqResult.pynone ∧
        (make_api_request (some ttl) now s path response).2.2.cache =
          s.cache)) ∧
    (∀ item : CacheEntry α, s.cache.get path = some item →
      now - item.time ≤ ttl →
      (make_api_request (some ttl) now s path response).2.2.cache_hits =
          s.cache_hits + 1 ∧
      (make_api_request (some ttl) now s path response).2.2.cache_misses =
          s.cache_misses ∧
      (make_api_request (some ttl) now s path response).2.1 = false ∧
      (make_api_request (some ttl) now s path response).1 =
          ReqResult.json item.response ∧
      (make_api_request (some ttl) now s path response).2.2.cache =
          s.cache) := by
  constructor
  · intro hmiss
    have hbranch : make_api_request (some ttl) now s path response =
        cacheMiss now s path response := by
      rcases hmiss with hnone | ⟨item, hsome, hexp⟩
      · rw [make_api_request, hnone]
      · rw [make_api_request, hsome]
        simp [hexp]
    rw [hbranch]
    cases hgood : res_is_good response with
    | true =>
        refine ⟨by simp [cacheMiss, hgood], by simp [cacheMiss, hgood],
          by simp [cacheMiss, hgood], fun _ => ⟨by simp [cacheMiss, hgood],
          by simp [cacheMiss, hgood]⟩, fun hbad => absurd hbad (by simp)⟩
    | false =>
        refine ⟨by simp [cacheMiss, hgood], by simp [cacheMiss, hgood],
          by simp [cacheMiss, hgood], fun hg => absurd hg (by simp),
          fun _ => ⟨by simp [cacheMiss, hgood], by simp [cacheMiss, hgood]⟩⟩
  · intro item hsome hfresh
    have hbranch : make_api_request (some ttl) now s path response =
        (ReqResult.json item.response, false,
          { s with cache_hits := s.cache_hits + 1 }) := by
      rw [make_api_request, hsome]
      simp [not_lt.mpr hfresh]
    rw [hbranch]
    exact ⟨rfl, rfl, rfl, rfl, rfl⟩

/-- Concrete instance for C1: from an empty cache, a successful fetch of
`"status"` is a miss that stores the payload; an immediate re-request within
the TTL is a hit served from the cache without fetching. -/
theorem make_api_request_fetch_through_check :
    (make_api_request (some 60) 1000 ⟨0, 0, fun _ => none⟩ "status"
        (⟨200, 42⟩ : Response Nat)).1 = ReqResult.json 42 ∧
    (make_api_request (some 60) 1000 ⟨0, 0, fun _ => none⟩ "status"
        (⟨200, 42⟩ : Response Nat)).2.2.cache_misses = 1 ∧
    (make_api_request (some 60) 1000 ⟨0, 0, fun _ => none⟩ "status"
        (⟨200, 42⟩ : Response Nat)).2.2.cache_hits = 0 ∧
    (make_api_request (some 60) 1000 ⟨0, 0, fun _ => none⟩ "status"
        (⟨200, 42⟩ : Response Nat)).2.2.cache.get "status" =
      some ⟨1000, 42⟩ ∧
    (make_api_request (some 60) 1030
        ⟨0, 1, FileDict.set (fun _ => none) "status" ⟨1000, 42⟩⟩ "status"
        (⟨200, 43⟩ : Response Nat)).1 = ReqResult.json 42 ∧
    (make_api_request (some 60) 1030
        ⟨0, 1, FileDict.set (fun _ => none) "status" ⟨1000, 42⟩⟩ "status"
        (⟨200, 43⟩ : Response Nat)).2.1 = false ∧
    (make_api_request (some 60) 1030
        ⟨0, 1, FileDict.set (fun _ => none) "status" ⟨1000, 42⟩⟩ "status"
        (⟨200, 43⟩ : Response Nat)).2.2.cache_hits = 1 := by
  have h1 := (make_api_request_fetch_through (α := Nat) 60 1000
    ⟨0, 0, fun _ => none⟩ "status" ⟨200, 42⟩).1 (Or.inl rfl)
  have h2 := (make_api_request_fetch_through (α := Nat) 60 1030
    ⟨0, 1, FileDict.set (fun _ => none) "status" ⟨1000, 42⟩⟩ "status"
    ⟨200, 43⟩).2 ⟨1000, 42⟩ rfl (by norm_num)
  refine ⟨(h1.2.2.2.1 rfl).1, h1.1, h1.2.1, ?_, h2.2.2.2.1, h2.2.2.1, h2.1⟩
  rw [(h1.2.2.2.1 rfl).2]
  simp [FileDict.get, FileDict.set]

/-! ## Claims about the ordering policy -/

/-- C10: for unplayed matches the comparator returns `-1` in both argument
orders (the first branch of `match_cmp` looks only at its first argument), so
it is not antisymmetric on inputs with two or more unplayed matches; two
distinct unplayed matches witnessing this exist. -/
theorem match_cmp_unplayed_both_less :
    (∀ x y : Match, x.was_played = false → y.was_played = false →
      match_cmp x y = some (-1) ∧ match_cmp y x = some (-1)) ∧
    (∃ x y : Match, x ≠ y ∧
      match_cmp x y = some (-1) ∧ match_cmp y x = some (-1)) := by
  constructor
  · intro x y hx hy
    constructor
    · rw [match_cmp, if_pos hx]
    · rw [match_cmp, if_pos hy]
  · exact ⟨⟨"a", "e", "qm", 1, 1, [], [], none, none, none, none, "", []⟩,
      ⟨"b", "e", "qm", 1, 2, [], [], none, none, none, none, "", []⟩,
      by decide, by decide, by decide⟩

/-- Concrete instance for C10: two concrete unplayed matches compare as
`-1` in both orders. -/
theorem match_cmp_unplayed_both_less_check :
    match_cmp
      ⟨"x", "e", "sf", 1, 1, [], [], none, none, none, none, "", []⟩
      ⟨"y", "e", "qm", 1, 3, [], [], none, none, none, none, "", []⟩ =
      some (-1) ∧
    match_cmp
      ⟨"y", "e", "qm", 1, 3, [], [], none, none, none, none, "", []⟩
      ⟨"x", "e", "sf", 1, 1, [], [], none, none, none, none, "", []⟩ =
      some (-1) :=
  match_cmp_unplayed_both_less.1 _ _ rfl rfl

/-- For played matches at the three levels of one event, the comparator
order is the lexicographic order on (level rank, overall number). -/
theorem matchLe_iff (x y : Match)
    (hx : x.was_played = true) (hy : y.was_played = true)
    (hlx : x.comp_level = "qm" ∨ x.comp_level = "sf" ∨ x.comp_level = "f")
    (hly : y.comp_level = "qm" ∨ y.comp_level = "sf" ∨ y.comp_level = "f") :
    MatchR x y ↔ (levelRank x.comp_level < levelRank y.comp_level ∨
      (levelRank x.comp_level = levelRank y.comp_level ∧
        x.overall_number ≤ y.overall_number)) := by
  rcases hlx with hlx | hlx | hlx <;> rcases hly with hly | hly | hly <;>
    simp [MatchR, matchLe, match_cmp, comp_level_cmp, hx, hy, hlx, hly,
      levelRank]

/-- `List.Sorted.orderedInsert` with the totality and transitivity
hypotheses localized to the inserted element and the list (the comparator
relation is not total on all of `Match`). -/
theorem sorted_orderedInsert_mem (a : Match) :
    ∀ l : List Match, l.Sorted MatchR →
      (∀ y ∈ l, MatchR a y ∨ MatchR y a) →
      (∀ y ∈ l, ∀ z ∈ l, MatchR a y → MatchR y z → MatchR a z) →
      (l.orderedInsert MatchR a).Sorted MatchR
  | [], _, _, _ => List.sorted_singleton a
  | b :: l, h, htot, htrans => by
    by_cases hab : MatchR a b
    · rw [List.orderedInsert, if_pos hab, List.sorted_cons]
      refine ⟨List.forall_mem_cons.2 ⟨hab, fun c hc =>
        htrans b (List.mem_cons_self b l) c (List.mem_cons_of_mem b hc) hab
          (List.rel_of_sorted_cons h c hc)⟩, h⟩
    · rw [List.orderedInsert, if_neg hab, List.sorted_cons]
      refine ⟨fun b' hb' => ?_, sorted_orderedInsert_mem a l h.of_cons
        (fun y hy => htot y (List.mem_cons_of_mem b hy))
        (fun y hy z hz => htrans y (List.mem_cons_of_mem b hy) z
          (List.mem_cons_of_mem b hz))⟩
      rcases (List.mem_orderedInsert MatchR).mp hb' with rfl | hb'
      · exact (htot b (List.mem_cons_self b l)).resolve_left hab
      · exact List.rel_of_sorted_cons h b' hb'

/-- `List.sorted_insertionSort` with the totality and transitivity
hypotheses localized to the elements of the list. -/
theorem sorted_insertionSort_mem :
    ∀ l : List Match,
      (∀ x ∈ l, ∀ y ∈ l, MatchR x y ∨ MatchR y x) →
      (∀ x ∈ l, ∀ y ∈ l, ∀ z ∈ l, MatchR x y → MatchR y z → MatchR x z) →
      (l.insertionSort MatchR).Sorted MatchR
  | [], _, _ => List.sorted_nil
  | a :: l, htot, htrans => by
    rw [List.insertionSort]
    refine sorted_orderedInsert_mem a (l.insertionSort MatchR)
      (sorted_insertionSort_mem l
        (fun x hx y hy => htot x (List.mem_cons_of_mem a hx) y
          (List.mem_cons_of_mem a hy))
        (fun x hx y hy z hz => htrans x (List.mem_cons_of_mem a hx) y
          (List.mem_cons_of_mem a hy) z (List.mem_cons_of_mem a hz)))
      (fun y hy => htot a (List.mem_cons_self a l) y
        (List.mem_cons_of_mem a ((List.mem_insertionSort MatchR).mp hy)))
      (fun y hy z hz => htrans a (List.mem_cons_self a l) y
        (List.mem_cons_of_mem a ((List.mem_insertionSort MatchR).mp hy)) z
        (List.mem_cons_of_mem a ((List.mem_insertionSort MatchR).mp hz)))

/-- Membership is preserved by the ordering-policy sort. -/
theorem mem_sortMatches {a : Match} {l : List Match} :
    a ∈ sortMatches l ↔ a ∈ l :=
  List.mem_insertionSort MatchR

/-- C5: on a list of played matches with levels among qualification,
semifinal and final, the ordering-policy sort is idempotent, puts the levels
in qualification → semifinal → final order, and orders matches of equal
level by `overall_number`. -/
theorem sortMatches_total_order (l : List Match)
    (hp : ∀ m ∈ l, m.was_played = true)
    (hl : ∀ m ∈ l, m.comp_level = "qm" ∨ m.comp_level = "sf" ∨
      m.comp_level = "f") :
    sortMatches (sortMatches l) = sortMatches l ∧
    (sortMatches l).Pairwise
      (fun x y => levelRank x.comp_level ≤ levelRank y.comp_level) ∧
    (sortMatches l).Pairwise
      (fun x y => x.comp_level = y.comp_level →
        x.overall_number ≤ y.overall_number) := by
  have hsorted : (sortMatches l).Sorted MatchR := by
    refine sorted_insertionSort_mem l ?_ ?_
    · intro x hx y hy
      rw [matchLe_iff x y (hp x hx) (hp y hy) (hl x hx) (hl y hy),
        matchLe_iff y x (hp y hy) (hp x hx) (hl y hy) (hl x hx)]
      omega
    · intro x hx y hy z hz h1 h2
      rw [matchLe_iff x y (hp x hx) (hp y hy) (hl x hx) (hl y hy)] at h1
      rw [matchLe_iff y z (hp y hy) (hp z hz) (hl y hy) (hl z hz)] at h2
      rw [matchLe_iff x z (hp x hx) (hp z hz) (hl x hx) (hl z hz)]
      omega
  refine ⟨List.Sorted.insertionSort_eq hsorted, ?_, ?_⟩
  · refine List.Pairwise.imp_of_mem ?_ hsorted
    intro a b ha hb hr
    rcases (matchLe_iff a b (hp a (mem_sortMatches.mp ha))
      (hp b (mem_sortMatches.mp hb)) (hl a (mem_sortMatches.mp ha))
      (hl b (mem_sortMatches.mp hb))).mp hr with h | h
    · exact Nat.le_of_lt h
    · exact Nat.le_of_eq h.1
  · refine List.Pairwise.imp_of_mem ?_ hsorted
    intro a b ha hb hr heq
    rcases (matchLe_iff a b (hp a (mem_sortMatches.mp ha))
      (hp b (mem_sortMatches.mp hb)) (hl a (mem_sortMatches.mp ha))
      (hl b (mem_sortMatches.mp hb))).mp hr with h | h
    · rw [heq] at h
      exact absurd h (lt_irrefl _)
    · exact h.2

/-- Concrete instance for C5: a final, a semifinal and a qualification
match, all played; the sort's guarantees hold for them. -/
theorem sortMatches_total_order_check :
    sortMatches (sortMatches
      [⟨"f1", "e", "f", 1, 1, [1, 2, 3], [4, 5, 6], some 9, some 8,
        none, none, "red", []⟩,
       ⟨"sf2", "e", "sf", 2, 1, [1, 2, 3], [4, 5, 6], some 5, some 6,
        none, none, "blue", []⟩,
       ⟨"qm7", "e", "qm", 1, 7, [1, 2, 3], [4, 5, 6], some 3, some 2,
        none, none, "red", []⟩]) = sortMatches
      [⟨"f1", "e", "f", 1, 1, [1, 2, 3], [4, 5, 6], some 9, some 8,
        none, none, "red", []⟩,
       ⟨"sf2", "e", "sf", 2, 1, [1, 2, 3], [4, 5, 6], some 5, some 6,
        none, none, "blue", []⟩,
       ⟨"qm7", "e", "qm", 1, 7, [1, 2, 3], [4, 5, 6], some 3, some 2,
        none, none, "red", []⟩] ∧
    (sortMatches
      [⟨"f1", "e", "f", 1, 1, [1, 2, 3], [4, 5, 6], some 9, some 8,
        none, none, "red", []⟩,
       ⟨"sf2", "e", "sf", 2, 1, [1, 2, 3], [4, 5, 6], some 5, some 6,
        none, none, "blue", []⟩,
       ⟨"qm7", "e", "qm", 1, 7, [1, 2, 3], [4, 5, 6], some 3, some 2,
        none, none, "red", []⟩]).Pairwise
      (fun x y => levelRank x.comp_level ≤ levelRank y.comp_level) ∧
    (sortMatches
      [⟨"f1", "e", "f", 1, 1, [1, 2, 3], [4, 5, 6], some 9, some 8,
        none, none, "red", []⟩,
       ⟨"sf2", "e", "sf", 2, 1, [1, 2, 3], [4, 5, 6], some 5, some 6,
        none, none, "blue", []⟩,
       ⟨"qm7", "e", "qm", 1, 7, [1, 2, 3], [4, 5, 6], some 3, some 2,
        none, none, "red", []⟩]).Pairwise
      (fun x y => x.comp_level = y.comp_level →
        x.overall_number ≤ y.overall_number) :=
  sortMatches_total_order _ (by decide) (by decide)

/-! ## Claims about the ranking replay -/

/-- The replay fold in terms of the per-step trajectories: the final rank
state is the fold of the qualification matches, and the two output lists are
the appended trajectories. -/
theorem replay_foldl (teams : List Int) (target : Int) :
    ∀ (ms : List Match) (ranks : Int → Int × Nat) (avgs : List ℚ)
      (rks : List Nat),
      ms.foldl (replayStep teams target) (ranks, avgs, rks) =
        ((ms.filter (fun m => m.comp_level == "qm")).foldl rankFold ranks,
         avgs ++ trajAvg target ranks ms,
         rks ++ trajRank teams target ranks ms)
  | [], ranks, avgs, rks => by simp [trajAvg, trajRank]
  | m :: rest, ranks, avgs, rks => by
    by_cases hq : m.comp_level = "qm"
    · rw [List.foldl_cons]
      rw [show replayStep teams target (ranks, avgs, rks) m =
        (rankFold ranks m, avgs ++ [avgOf (rankFold ranks m target)],
         rks ++ [rankOfTarget teams (rankFold ranks m) target]) by
          simp [replayStep, hq]]
      rw [replay_foldl teams target rest]
      simp [trajAvg, trajRank, hq, List.filter_cons]
    · rw [List.foldl_cons]
      rw [show replayStep teams target (ranks, avgs, rks) m =
        (ranks, avgs, rks) by simp [replayStep, hq]]
      rw [replay_foldl teams target rest]
      simp [trajAvg, trajRank, hq, List.filter_cons]

/-- The `i`-th recorded average is the average of the target's state after
folding the first `i + 1` qualification matches. -/
theorem trajAvg_get (target : Int) :
    ∀ (ms : List Match) (ranks : Int → Int × Nat) (i : Nat),
      i < (ms.filter (fun m => m.comp_level == "qm")).length →
      (trajAvg target ranks ms).get? i =
        some (avgOf
          ((((ms.filter (fun m => m.comp_level == "qm")).take (i + 1)).foldl
            rankFold ranks) target))
  | [], ranks, i, h => by simp at h
  | m :: rest, ranks, i, h => by
    by_cases hq : m.comp_level = "qm"
    · have hq' : (m.comp_level == "qm") = true := by simpa using hq
      cases i with
      | zero => simp [trajAvg, hq, List.filter_cons, hq']
      | succ i =>
          simp only [trajAvg, if_pos hq, List.get?_cons_succ]
          simp only [List.filter_cons, hq', if_pos] at h ⊢
          rw [trajAvg_get target rest (rankFold ranks m) i (by simpa using h)]
          simp [List.take_succ_cons]
    · have hq' : (m.comp_level == "qm") = false := by simpa using hq
      simp only [trajAvg, if_neg hq]
      simp only [List.filter_cons, hq'] at h ⊢
      simp only [Bool.false_eq_true, if_neg] at h ⊢
      exact trajAvg_get target rest ranks i h

/-- The `i`-th recorded rank is the rank computed from the state after
folding the first `i + 1` qualification matches. -/
theorem trajRank_get (teams : List Int) (target : Int) :
    ∀ (ms : List Match) (ranks : Int → Int × Nat) (i : Nat),
      i < (ms.filter (fun m => m.comp_level == "qm")).length →
      (trajRank teams target ranks ms).get? i =
        some (rankOfTarget teams
          (((ms.filter (fun m => m.comp_level == "qm")).take (i + 1)).foldl
            rankFold ranks) target)
  | [], ranks, i, h => by simp at h
  | m :: rest, ranks, i, h => by
    by_cases hq : m.comp_level = "qm"
    · have hq' : (m.comp_level == "qm") = true := by simpa using hq
      cases i with
      | zero => simp [trajRank, hq, List.filter_cons, hq']
      | succ i =>
          simp only [trajRank, if_pos hq, List.get?_cons_succ]
          simp only [List.filter_cons, hq', if_pos] at h ⊢
          rw [trajRank_get teams target rest (rankFold ranks m) i
            (by simpa using h)]
          simp [List.take_succ_cons]
    · have hq' : (m.comp_level == "qm") = false := by simpa using hq
      simp only [trajRank, if_neg hq]
      simp only [List.filter_cons, hq'] at h ⊢
      simp only [Bool.false_eq_true, if_neg] at h ⊢
      exact trajRank_get teams target rest ranks i h

/-- One trajectory entry is produced per qualification match. -/
theorem trajAvg_length (target : Int) :
    ∀ (ms : List Match) (ranks : Int → Int × Nat),
      (trajAvg target ranks ms).length =
        (ms.filter (fun m => m.comp_level == "qm")).length
  | [], _ => rfl
  | m :: rest, ranks => by
    by_cases hq : m.comp_level = "qm"
    · have hq' : (m.comp_level == "qm") = true := by simpa using hq
      simp [trajAvg, hq, List.filter_cons, hq', trajAvg_length target rest]
    · have hq' : (m.comp_level == "qm") = false := by simpa using hq
      simp [trajAvg, hq, List.filter_cons, hq', trajAvg_length target rest]

/-- One rank entry is produced per qualification match. -/
theorem trajRank_length (teams : List Int) (target : Int) :
    ∀ (ms : List Match) (ranks : Int → Int × Nat),
      (trajRank teams target ranks ms).length =
        (ms.filter (fun m => m.comp_level == "qm")).length
  | [], _ => rfl
  | m :: rest, ranks => by
    by_cases hq : m.comp_level = "qm"
    · have hq' : (m.comp_level == "qm") = true := by simpa using hq
      simp [trajRank, hq, List.filter_cons, hq',
        trajRank_length teams target rest]
    · have hq' : (m.comp_level == "qm") = false := by simpa using hq
      simp [trajRank, hq, List.filter_cons, hq',
        trajRank_length teams target rest]

/-- C4: after folding in each qualification match, the recorded average-RP
entry equals cumulative points over matches played (0 when none played) for
the state reached after the first `i + 1` qualification matches, and the
recorded rank entry equals 1 plus the number of teams whose average strictly
exceeds the target's; in particular for 4 teams and one qualification match
awarding the target's alliance 2 RP, the first entries are rank 1 and
average 2. -/
theorem get_team_rank_replay_traj :
    (∀ (teams : List Int) (target : Int) (ms : List Match),
      (get_team_rank_replay teams target ms).2.1.length =
        (ms.filter (fun m => m.comp_level == "qm")).length ∧
      (get_team_rank_replay teams target ms).2.2.length =
        (ms.filter (fun m => m.comp_level == "qm")).length ∧
      (∀ i : Nat, i < (ms.filter (fun m => m.comp_level == "qm")).length →
        (get_team_rank_replay teams target ms).2.1.get? i =
          some (avgOf
            ((((ms.filter (fun m => m.comp_level == "qm")).take (i + 1)).foldl
              rankFold (fun _ => (0, 0))) target)) ∧
        (get_team_rank_replay teams target ms).2.2.get? i =
          some (1 + teams.countP (fun t =>
            decide (avgOf
              ((((ms.filter
                (fun m => m.comp_level == "qm")).take (i + 1)).foldl
                rankFold (fun _ => (0, 0))) target) <
              avgOf
              ((((ms.filter
                (fun m => m.comp_level == "qm")).take (i + 1)).foldl
                rankFold (fun _ => (0, 0))) t)))))) ∧
    (get_team_rank_replay [1, 2, 3, 4] 1
      [⟨"qm1", "e", "qm", 1, 1, [1, 2, 3], [4], some 2, some 1, some 2,
        some 0, "red", []⟩]).2.1 = [2] ∧
    (get_team_rank_replay [1, 2, 3, 4] 1
      [⟨"qm1", "e", "qm", 1, 1, [1, 2, 3], [4], some 2, some 1, some 2,
        some 0, "red", []⟩]).2.2 = [1] := by
  refine ⟨fun teams target ms => ?_, ?_, ?_⟩
  · have hfold := replay_foldl teams target ms (fun _ => (0, 0)) [] []
    rw [get_team_rank_replay, hfold]
    refine ⟨by simp [trajAvg_length], by simp [trajRank_length], ?_⟩
    intro i hi
    refine ⟨by simpa using trajAvg_get target ms (fun _ => (0, 0)) i hi, ?_⟩
    have := trajRank_get teams target ms (fun _ => (0, 0)) i hi
    simpa [rankOfTarget] using this
  · simp [get_team_rank_replay, replayStep, rankFold, addRP, avgOf,
      rankOfTarget]
  · simp [get_team_rank_replay, replayStep, rankFold, addRP, avgOf,
      rankOfTarget]

/-- Concrete instance for C4 exercising the general part: for the
four-team single-match replay, the first recorded average is the folded
state's average and the first recorded rank is 1 plus the count of
strictly-better teams. -/
theorem get_team_rank_replay_traj_check :
    (get_team_rank_replay [1, 2, 3, 4] 1
      [⟨"qm1", "e", "qm", 1, 1, [1, 2, 3], [4], some 2, some 1, some 2,
        some 0, "red", []⟩]).2.1.get? 0 =
      some (avgOf
        (((([⟨"qm1", "e", "qm", 1, 1, [1, 2, 3], [4], some 2, some 1, some 2,
          some 0, "red", []⟩].filter
            (fun m => m.comp_level == "qm")).take 1).foldl
          rankFold (fun _ => (0, 0))) 1)) :=
  ((get_team_rank_replay_traj.1 [1, 2, 3, 4] 1
    [⟨"qm1", "e", "qm", 1, 1, [1, 2, 3], [4], some 2, some 1, some 2,
      some 0, "red", []⟩]).2.2 0 (by simp)).1

end Blue1
